import Mathlib

/-!
# NesaVent backend: registration / payment / ticket lifecycle, verified model

A shallow embedding of the registration lifecycle of the NesaVent event-ticketing
backend: ticket-tier inventory (`EventService.updateTicketAvailability`),
registration creation (`RegistrationService.createRegistration`), the Midtrans
webhook (`PaymentService.handlePaymentNotification` and its helpers), the payment
expiry sweep (`expirePaymentsJob`), cancellation, check-in and QR validation
(`RegistrationService.cancelRegistration` / `checkInRegistration` /
`validateQRCode`, `CheckInService.processCheckIn`), and the ticket-number
pre-save hook of the `Registration` mongoose model.

Conventions of the embedding:
* string identifiers (Mongo ObjectIds, order ids, ticket numbers) are `Nat`;
  an empty-string / unset field is `Option.none`;
* timestamps are `Nat` milliseconds; JavaScript `Math.max(0, x - y)` on
  non-negative counters is `Nat` truncated subtraction;
* each mongoose `save()` / `find` is a read or write of an explicit `World`
  value, so a sequence of round-trips is explicit state passing;
* fire-and-forget side effects (email, WhatsApp, Cloudinary uploads, Redis
  cache invalidation, logging) do not touch the `World` and are elided;
* randomness (nanoid ticket numbers, order ids) is passed in as arguments.
-/

namespace NesaVent

/-- `payment.status` enum of the Registration model. -/
inductive PayStatus
  | pending
  | paid
  | expired
  | failed
  | refunded
  deriving DecidableEq, Repr

/-- Top-level `status` enum of the Registration model. -/
inductive RegStatus
  | pendingPayment
  | confirmed
  | cancelled
  | attended
  | noShow
  deriving DecidableEq, Repr

/-- `ticket.status` enum of the Registration model. -/
inductive TicketStatus
  | valid
  | used
  | cancelled
  | expired
  deriving DecidableEq, Repr

/-- Event `status` enum (only `published` gates registration creation). -/
inductive EventStatus
  | draft
  | pendingApproval
  | approved
  | rejected
  | published
  | ongoing
  | completed
  | cancelledEvent
  deriving DecidableEq, Repr

/-- One entry of `event.ticketTypes`: per-tier price and inventory counters.
`available` is stored (not just derived), and can go negative, hence `Int`. -/
structure TicketTier where
  id : Nat
  price : Nat
  quota : Nat
  sold : Nat
  reserved : Nat
  available : Int
  isActive : Bool
  deriving DecidableEq, Repr

/-- Derived statistics on the event document, recomputed by
`updateTicketAvailability`. -/
structure EventStats where
  totalSold : Nat
  totalRevenue : Nat
  deriving DecidableEq, Repr

/-- The slice of the Event document the registration lifecycle reads. -/
structure Event where
  id : Nat
  organizerId : Nat
  status : EventStatus
  registrationOpen : Nat
  registrationClose : Nat
  ticketTypes : List TicketTier
  stats : EventStats
  deriving DecidableEq, Repr

/-- `ticket.checkIn` subdocument. -/
structure CheckInRecord where
  checkedAt : Nat
  checkedBy : Nat
  deriving DecidableEq, Repr

/-- `payment` subdocument of a Registration. -/
structure Payment where
  method : String
  status : PayStatus
  amount : Nat
  adminFee : Nat
  totalAmount : Nat
  orderId : Option Nat
  snapToken : Option Nat
  transactionId : Option Nat
  paidAt : Option Nat
  expiredAt : Nat
  refundedAt : Option Nat
  deriving DecidableEq, Repr

/-- The decrypted QR credential payload
(`{registrationId, ticketNumber, eventId, userId, timestamp}`). -/
structure QRData where
  registrationId : Nat
  ticketNumber : Nat
  eventId : Nat
  userId : Nat
  timestamp : Nat
  deriving DecidableEq, Repr

/-- `ticket` subdocument of a Registration. `ticketNumber = none` is the
empty string (falsy in the pre-save hook and truthiness checks). -/
structure Ticket where
  ticketNumber : Option Nat
  qrCode : Option QRData
  status : TicketStatus
  checkIn : Option CheckInRecord
  deriving DecidableEq, Repr

/-- `cancellation` subdocument. -/
structure Cancellation where
  cancelledAt : Nat
  cancelledBy : Option Nat
  refundPending : Bool
  deriving DecidableEq, Repr

/-- The Registration document (ticket-tier snapshot inlined as
`tierId` / `tierPrice`, as `ticketType.{id, price}`). -/
structure Registration where
  id : Nat
  userId : Nat
  eventId : Nat
  tierId : Nat
  tierPrice : Nat
  quantity : Nat
  payment : Payment
  ticket : Ticket
  status : RegStatus
  cancellation : Option Cancellation
  deriving DecidableEq, Repr

/-- The persistent store: the Event and Registration collections plus the ids
of existing users (the `User.findById` check in `createRegistration`). -/
structure World where
  events : List Event
  regs : List Registration
  users : List Nat
  deriving DecidableEq, Repr

/-! ## Store round-trip helpers -/

/-- `Event.findById`. -/
def findEvent (w : World) (eventId : Nat) : Option Event :=
  w.events.find? (fun e => e.id == eventId)

/-- `Registration.findById`. -/
def findReg (w : World) (regId : Nat) : Option Registration :=
  w.regs.find? (fun r => r.id == regId)

/-- `Registration.findOne({'payment.orderId': orderId})`. -/
def findRegByOrder (w : World) (orderId : Nat) : Option Registration :=
  w.regs.find? (fun r => r.payment.orderId == some orderId)

/-- `event.ticketTypes.find(t => t._id === tid)`. -/
def findTier (e : Event) (tid : Nat) : Option TicketTier :=
  e.ticketTypes.find? (fun t => t.id == tid)

/-- `registration.save()`: write back the document with this id. -/
def saveReg (w : World) (r : Registration) : World :=
  { w with regs := w.regs.map (fun x => if x.id == r.id then r else x) }

/-- `event.save()`: write back the event document with this id. -/
def saveEvent (w : World) (e : Event) : World :=
  { w with events := w.events.map (fun x => if x.id == e.id then e else x) }

/-- Insert a freshly created Registration document (`Registration.create`). -/
def insertReg (w : World) (r : Registration) : World :=
  { w with regs := w.regs ++ [r] }

/-! ## Ticket Inventory Ledger -/

/-- `EventService.updateTicketAvailability(eventId, ticketTypeId, soldCount,
reservedCount)` on an already-fetched event: overwrites `sold` and `reserved`
with the given absolute counts, recomputes `available = quota - sold - reserved`
for that tier, and recomputes the event's derived totals. -/
def applyTicketAvailability (e : Event) (tid soldCount reservedCount : Nat) : Event :=
  let tickets := e.ticketTypes.map (fun t =>
    if t.id == tid then
      { t with
        sold := soldCount
        reserved := reservedCount
        available := (t.quota : Int) - (soldCount : Int) - (reservedCount : Int) }
    else t)
  { e with
    ticketTypes := tickets
    stats :=
      { totalSold := (tickets.map (fun t => t.sold)).sum
        totalRevenue := (tickets.map (fun t => t.sold * t.price)).sum } }

/-- `EventService.updateTicketAvailability` as a store round-trip: fetch the
event, rewrite the tier, save.  Missing event or tier throws in the source; no
caller in the modelled slice reaches that branch, so it is the identity here. -/
def updateTicketAvailability (w : World) (eventId tid soldCount reservedCount : Nat) : World :=
  match findEvent w eventId with
  | none => w
  | some e =>
    match findTier e tid with
    | none => w
    | some _ => saveEvent w (applyTicketAvailability e tid soldCount reservedCount)

/-! ## Registration model pre-save hook -/

/-- The `registrationSchema.pre('save')` ticket-number hook: when
`payment.status` was modified on this save, its value is `paid`, and no ticket
number is set, assign a fresh ticket number and force `status = 'confirmed'`.
`statusModified` is mongoose's `isModified('payment.status')` (true on a new
document; true on an existing one only when the value actually changed). -/
def ticketNumberHook (statusModified : Bool) (fresh : Nat) (r : Registration) : Registration :=
  if statusModified && r.payment.status == .paid && r.ticket.ticketNumber == none then
    { r with
      ticket := { r.ticket with ticketNumber := some fresh }
      status := .confirmed }
  else r

/-! ## Payment Reconciliation (PaymentService) -/

/-- Midtrans `transaction_status` vocabulary, as dispatched by the webhook. -/
inductive TxnStatus
  | capture
  | settlement
  | pendingTxn
  | deny
  | cancel
  | expire
  | refund
  | partialRefund
  | unknown
  deriving DecidableEq, Repr

/-- Midtrans `fraud_status` values; `none` models an absent field. -/
inductive FraudStatus
  | accept
  | challenge
  | denyFraud
  deriving DecidableEq, Repr

/-- The webhook body (`PaymentNotification`). -/
structure ProviderNote where
  orderId : Nat
  statusCode : Nat
  grossAmount : Nat
  signatureKey : Nat
  transactionStatus : TxnStatus
  transactionId : Nat
  fraudStatus : Option FraudStatus
  deriving DecidableEq, Repr

/-- Modelled from the spec: the provider-specific signature scheme
(SHA-512 over `order_id + status_code + gross_amount + serverKey`, a library
primitive external to the repository) is modelled as an ideal collision-free
hash, here an injective pairing of the four inputs. -/
def midtransSignature (orderId statusCode grossAmount serverKey : Nat) : Nat :=
  Nat.pair orderId (Nat.pair statusCode (Nat.pair grossAmount serverKey))

/-- `PaymentService.verifyNotification`: recompute the hash over the canonical
fields and the server key and compare it with the presented `signature_key`. -/
def verifyNote (serverKey : Nat) (n : ProviderNote) : Bool :=
  n.signatureKey == midtransSignature n.orderId n.statusCode n.grossAmount serverKey

/-- `PaymentService.handleSuccessfulPayment`: set `payment.status = 'paid'`,
`paidAt`, `transactionId` and `status = 'confirmed'`; save (running the
ticket-number pre-save hook); then convert one reserved unit to a sale:
`updateTicketAvailability(sold + 1, Math.max(0, reserved - 1))`.
There is no guard on the current payment or registration status.
Ticket generation / notification is fire-and-forget and elided. -/
def handleSuccessfulPayment (w : World) (r : Registration) (txnId fresh now : Nat) : World :=
  let old := r.payment.status
  let r1 := { r with
    payment := { r.payment with status := .paid, paidAt := some now, transactionId := some txnId }
    status := .confirmed }
  let r2 := ticketNumberHook (old != .paid) fresh r1
  let w1 := saveReg w r2
  match findEvent w1 r.eventId with
  | none => w1
  | some e =>
    match findTier e r.tierId with
    | none => w1
    | some t => saveEvent w1 (applyTicketAvailability e r.tierId (t.sold + 1) (t.reserved - 1))

/-- `PaymentService.handleFailedPayment`: mark the payment `expired` (on
`expire`) or `failed`, cancel the registration, save, and release one reserved
unit (`Math.max(0, reserved - 1)`), leaving `sold` unchanged. -/
def handleFailedPayment (w : World) (r : Registration) (isExpire : Bool) : World :=
  let r1 := { r with
    payment := { r.payment with status := if isExpire then .expired else .failed }
    status := .cancelled }
  let w1 := saveReg w (ticketNumberHook true 0 r1)
  match findEvent w1 r.eventId with
  | none => w1
  | some e =>
    match findTier e r.tierId with
    | none => w1
    | some t => saveEvent w1 (applyTicketAvailability e r.tierId t.sold (t.reserved - 1))

/-- `PaymentService.handleRefund`: mark the payment `refunded`, cancel the
registration and its ticket, save, and return one sold unit
(`Math.max(0, sold - 1)`), leaving `reserved` unchanged. -/
def handleRefund (w : World) (r : Registration) (now : Nat) : World :=
  let r1 := { r with
    payment := { r.payment with status := .refunded, refundedAt := some now }
    status := .cancelled
    ticket := { r.ticket with status := .cancelled } }
  let w1 := saveReg w (ticketNumberHook true 0 r1)
  match findEvent w1 r.eventId with
  | none => w1
  | some e =>
    match findTier e r.tierId with
    | none => w1
    | some t => saveEvent w1 (applyTicketAvailability e r.tierId (t.sold - 1) t.reserved)

/-- `PaymentService.handlePaymentNotification` (the webhook entry point):
verify the signature (throwing, with no state change, when invalid); look the
registration up by `payment.orderId` (silently acknowledging when absent);
then dispatch on `transaction_status` exactly as the source's `switch`:
`capture`/`settlement` run `handleSuccessfulPayment` when `fraud_status` is
`accept` or absent and re-save `payment.status = 'pending'` on `challenge`
(a fraud `deny` falls through with no action); `pending` re-saves `pending`;
`deny`/`cancel`/`expire` run `handleFailedPayment`; `refund`/`partial_refund`
run `handleRefund`; anything else is logged and ignored. -/
def handlePaymentNotification (w : World) (serverKey : Nat) (n : ProviderNote)
    (fresh now : Nat) : Except String World :=
  if !verifyNote serverKey n then
    .error "Signature notifikasi tidak valid"
  else
    match findRegByOrder w n.orderId with
    | none => .ok w
    | some r =>
      match n.transactionStatus with
      | .capture | .settlement =>
        match n.fraudStatus with
        | some .accept =>
          .ok (handleSuccessfulPayment w r n.transactionId fresh now)
        | none =>
          .ok (handleSuccessfulPayment w r n.transactionId fresh now)
        | some .challenge =>
          .ok (saveReg w (ticketNumberHook (r.payment.status != .pending) 0
            { r with payment := { r.payment with status := .pending } }))
        | some .denyFraud => .ok w
      | .pendingTxn =>
        .ok (saveReg w (ticketNumberHook (r.payment.status != .pending) 0
          { r with payment := { r.payment with status := .pending } }))
      | .deny => .ok (handleFailedPayment w r false)
      | .cancel => .ok (handleFailedPayment w r false)
      | .expire => .ok (handleFailedPayment w r true)
      | .refund => .ok (handleRefund w r now)
      | .partialRefund => .ok (handleRefund w r now)
      | .unknown => .ok w

/-- `PaymentService.createPayment`: fetch the registration, reject unless
`payment.status` is still `pending`, call the external Snap API (its outcome is
the `providerOk` argument; on failure the source throws
`"Gagal membuat transaksi pembayaran"` before mutating anything), then store
the generated order id, snap token and fee split on the registration.
Returns the updated world together with the payment data or the thrown error. -/
def createPayment (w : World) (registrationId : Nat) (amount : Nat)
    (orderId snapToken : Nat) (providerOk : Bool) :
    World × Except String (Nat × Nat) :=
  match findReg w registrationId with
  | none => (w, .error "Gagal membuat transaksi pembayaran")
  | some r =>
    if r.payment.status != .pending then
      (w, .error "Gagal membuat transaksi pembayaran")
    else if !providerOk then
      (w, .error "Gagal membuat transaksi pembayaran")
    else
      let adminFee := 0
      let totalAmount := amount + adminFee
      let r1 := { r with payment := { r.payment with
        orderId := some orderId
        snapToken := some snapToken
        method := "midtrans"
        totalAmount := totalAmount
        adminFee := adminFee } }
      (saveReg w (ticketNumberHook false 0 r1), .ok (snapToken, orderId))

/-! ## Registration creation (RegistrationService.createRegistration) -/

/-- Request body of `createRegistration` (after zod validation:
`quantity` has `min(1)` and default 1 but no upper bound). -/
structure CreateRegData where
  userId : Nat
  eventId : Nat
  ticketTypeId : Nat
  quantity : Nat
  deriving DecidableEq, Repr

/-- Fresh values consumed by one `createRegistration` call: the new document
id, the nanoid ticket numbers available to the pre-save hook and to
`generateTicket`, the generated order id and snap token, and whether the
external Snap API call succeeds. -/
structure CreateEnv where
  regId : Nat
  hookTicket : Nat
  fallbackTicket : Nat
  orderId : Nat
  snapToken : Nat
  providerOk : Bool
  deriving DecidableEq, Repr

/-- `RegistrationService.generateTicket` (free-ticket path): build the QR
payload with `ticket.ticketNumber || 'NV-TIX-' + Date.now()`, render and upload
the QR image and the PDF (external blob store, modelled as succeeding), store
the ticket number and payload on the registration, and save. -/
def generateTicket (w : World) (r : Registration) (fallbackTicket now : Nat) :
    World × Except String Registration :=
  match findEvent w r.eventId with
  | none => (w, .error "Event tidak ditemukan")
  | some _ =>
    let tn := match r.ticket.ticketNumber with
      | some n => n
      | none => fallbackTicket
    let q : QRData :=
      { registrationId := r.id, ticketNumber := tn, eventId := r.eventId
        userId := r.userId, timestamp := now }
    let r1 := { r with ticket := { r.ticket with ticketNumber := some tn, qrCode := some q } }
    (saveReg w r1, .ok r1)

/-- `RegistrationService.createRegistration`, split at its database
round-trips: all reads (the event with its tier counters, the
duplicate-registration check, the user check) are performed against `wRead`,
and all writes (the `Registration.create` insert, the reservation write, the
payment-data save) are applied to `wWrite`.  A sequential call is
`wRead = wWrite`; two concurrent calls that have both read before either
wrote are two applications sharing the same `wRead`.

Guards, in source order: event exists and is `published`; `now` is within the
registration window; the tier exists, is active and has `available > 0` (the
requested quantity is not compared against `available`); the buyer has no
non-cancelled registration for the event; the user exists.  Then the document
is created (free registrations get `payment.status = 'paid'`,
`status = 'confirmed'`, and a ticket number from the pre-save hook), the
reservation is written as absolute counts `(sold, reserved + quantity)` from
the tier snapshot, free registrations get their ticket generated, and paid
ones get a payment intent via `createPayment` — whose failure propagates after
the insert and the reservation write have already been persisted.

Returns the resulting world and either the thrown error or the created
registration id with the optional payment data. -/
def createRegistrationRW (wRead wWrite : World) (d : CreateRegData)
    (env : CreateEnv) (now expiryHours : Nat) :
    World × Except String (Nat × Option (Nat × Nat)) :=
  match findEvent wRead d.eventId with
  | none => (wWrite, .error "Event tidak ditemukan")
  | some e =>
    if e.status != .published then (wWrite, .error "Event belum dipublikasikan")
    else if now < e.registrationOpen then (wWrite, .error "Pendaftaran belum dibuka")
    else if e.registrationClose < now then (wWrite, .error "Pendaftaran sudah ditutup")
    else
      match findTier e d.ticketTypeId with
      | none => (wWrite, .error "Tipe tiket tidak ditemukan")
      | some t =>
        if !t.isActive then (wWrite, .error "Tipe tiket tidak aktif")
        else if t.available ≤ 0 then (wWrite, .error "Tiket sudah habis")
        else if (wRead.regs.find? (fun r =>
            r.userId == d.userId && r.eventId == d.eventId && r.status != .cancelled)).isSome
          then (wWrite, .error "Anda sudah terdaftar untuk event ini")
        else if !(wRead.users.contains d.userId) then (wWrite, .error "User tidak ditemukan")
        else
          let quantity := if d.quantity == 0 then 1 else d.quantity
          let amount := t.price * quantity
          let adminFee := 0
          let totalAmount := amount + adminFee
          let reg0 : Registration :=
            { id := env.regId
              userId := d.userId
              eventId := d.eventId
              tierId := t.id
              tierPrice := t.price
              quantity := quantity
              payment :=
                { method := if amount == 0 then "free" else "midtrans"
                  status := if amount == 0 then .paid else .pending
                  amount := amount
                  adminFee := adminFee
                  totalAmount := totalAmount
                  orderId := none
                  snapToken := none
                  transactionId := none
                  paidAt := if amount == 0 then some now else none
                  expiredAt := now + expiryHours * 60 * 60 * 1000
                  refundedAt := none }
              ticket := { ticketNumber := none, qrCode := none, status := .valid, checkIn := none }
              status := if amount == 0 then .confirmed else .pendingPayment
              cancellation := none }
          let reg1 := ticketNumberHook true env.hookTicket reg0
          let w1 := insertReg wWrite reg1
          let w2 := updateTicketAvailability w1 e.id t.id t.sold (t.reserved + quantity)
          if amount == 0 then
            match generateTicket w2 reg1 env.fallbackTicket now with
            | (w3, .error msg) => (w3, .error msg)
            | (w3, .ok _) => (w3, .ok (reg1.id, none))
          else
            match createPayment w2 reg1.id totalAmount env.orderId env.snapToken env.providerOk with
            | (w3, .error msg) => (w3, .error msg)
            | (w3, .ok pay) => (w3, .ok (reg1.id, some pay))

/-- A sequential `createRegistration` call: reads and writes the same store. -/
def createRegistration (w : World) (d : CreateRegData) (env : CreateEnv)
    (now expiryHours : Nat) : World × Except String (Nat × Option (Nat × Nat)) :=
  createRegistrationRW w w d env now expiryHours

/-! ## Expiry Sweeper (expirePaymentsJob) -/

/-- The per-registration body of `expirePaymentsJob`: mark the payment
`expired`, cancel the registration, expire its ticket, save, and release the
reservation with `Math.max(0, reserved - quantity)`, leaving `sold` as is. -/
def expireOne (w : World) (r : Registration) : World :=
  let r1 := { r with
    payment := { r.payment with status := .expired }
    status := .cancelled
    ticket := { r.ticket with status := .expired } }
  let w1 := saveReg w (ticketNumberHook true 0 r1)
  match findEvent w1 r.eventId with
  | none => w1
  | some e =>
    match findTier e r.tierId with
    | none => w1
    | some t => saveEvent w1 (applyTicketAvailability e r.tierId t.sold (t.reserved - r.quantity))

/-- One run of `expirePaymentsJob`: query every registration with
`payment.status = 'pending'` and `payment.expiredAt <= now`, then process each
in order (per-item failures are caught and skipped in the source). -/
def expirePaymentsJob (w : World) (now : Nat) : World :=
  let expired := w.regs.filter (fun r =>
    r.payment.status == .pending && r.payment.expiredAt ≤ now)
  expired.foldl expireOne w

/-! ## Cancellation (RegistrationService.cancelRegistration) -/

/-- `RegistrationService.cancelRegistration`: only the owner may cancel, and
only from a non-`cancelled`, non-`attended` state.  Marks the registration and
its ticket `cancelled`, saves, then rewrites the tier from its current
counters: `sold - 1` (clamped) when the payment was `paid`, `reserved - 1`
(clamped) when it was `pending` — each judged from the snapshot's
`payment.status`.  A paid cancellation then files a refund request
(`PaymentService.requestRefund`), which stores the reason but moves no funds. -/
def cancelRegistration (w : World) (registrationId userId now : Nat) :
    World × Except String Registration :=
  match findReg w registrationId with
  | none => (w, .error "Registrasi tidak ditemukan")
  | some r =>
    if r.userId != userId then (w, .error "Akses tidak diizinkan")
    else if r.status == .cancelled then (w, .error "Registrasi sudah dibatalkan")
    else if r.status == .attended then
      (w, .error "Registrasi yang sudah attended tidak dapat dibatalkan")
    else
      let r1 := { r with
        status := .cancelled
        ticket := { r.ticket with status := .cancelled }
        cancellation := some
          { cancelledAt := now
            cancelledBy := some r.userId
            refundPending := r.payment.status == .paid } }
      let w1 := saveReg w (ticketNumberHook false 0 r1)
      let w2 :=
        match findEvent w1 r.eventId with
        | none => w1
        | some e =>
          match findTier e r.tierId with
          | none => w1
          | some t =>
            let newSold := if r.payment.status == .paid then t.sold - 1 else t.sold
            let newReserved := if r.payment.status == .pending then t.reserved - 1 else t.reserved
            saveEvent w1 (applyTicketAvailability e r.tierId newSold newReserved)
      (w2, .ok r1)

/-! ## Check-In Validator -/

/-- `RegistrationService.checkInRegistration`: requires current status
`confirmed` and a ticket that is neither `used` nor `cancelled`; stamps the
check-in record, marks the ticket `used` and the registration `attended`. -/
def checkInRegistration (w : World) (registrationId checkedBy now : Nat) :
    World × Except String Registration :=
  match findReg w registrationId with
  | none => (w, .error "Registrasi tidak ditemukan")
  | some r =>
    if r.status != .confirmed then (w, .error "Registrasi belum dikonfirmasi")
    else if r.ticket.status == .used then (w, .error "Tiket sudah digunakan")
    else if r.ticket.status == .cancelled then (w, .error "Tiket sudah dibatalkan")
    else
      let r1 := { r with
        status := .attended
        ticket := { r.ticket with
          status := .used
          checkIn := some { checkedAt := now, checkedBy := checkedBy } } }
      (saveReg w (ticketNumberHook false 0 r1), .ok r1)

/-- Rejection reasons of `RegistrationService.validateQRCode` (the Indonesian
message strings of the source, as a vocabulary). -/
inductive ValidateMsg
  | expiredQR
  | regNotFound
  | numberMismatch
  | alreadyUsed
  | ticketCancelled
  | notConfirmed
  | validQR
  deriving DecidableEq, Repr

/-- Result record of `validateQRCode`. -/
structure ValidationResult where
  valid : Bool
  registration : Option Registration
  message : ValidateMsg
  deriving DecidableEq, Repr

/-- `RegistrationService.validateQRCode` on a decoded payload: reject a
payload older than 30 days, an unknown registration, a ticket-number mismatch
with the stored one, a `used` or `cancelled` ticket, and any registration not
currently `confirmed`; otherwise the credential is valid. -/
def validateQRCode (w : World) (now : Nat) (q : QRData) : ValidationResult :=
  if 30 * 24 * 60 * 60 * 1000 < now - q.timestamp then
    { valid := false, registration := none, message := .expiredQR }
  else
    match findReg w q.registrationId with
    | none => { valid := false, registration := none, message := .regNotFound }
    | some r =>
      if r.ticket.ticketNumber != some q.ticketNumber then
        { valid := false, registration := none, message := .numberMismatch }
      else if r.ticket.status == .used then
        { valid := false, registration := some r, message := .alreadyUsed }
      else if r.ticket.status == .cancelled then
        { valid := false, registration := some r, message := .ticketCancelled }
      else if r.status != .confirmed then
        { valid := false, registration := some r, message := .notConfirmed }
      else
        { valid := true, registration := some r, message := .validQR }

/-! ## QR credential crypto (utils/crypto.ts, utils/qrcode.ts)

Modelled from the spec: the AES primitive behind `encryptQRCode` /
`decryptQRCode` is the external CryptoJS library, not repository code.  The
spec treats the credential as a symmetrically encrypted/signed payload whose
tampering or wrong-key decryption is always detected (decryption of a modified
ciphertext yields bytes that fail UTF-8/JSON parsing, so `decryptQRCode`
throws).  It is modelled as an ideal tamper-evident scheme: the ciphertext is
the encoded payload prefixed by an injective MAC of the key and the body. -/

/-- The JSON serialization of a QR payload, as a word list. -/
def encodeQRData (d : QRData) : List Nat :=
  [d.registrationId, d.ticketNumber, d.eventId, d.userId, d.timestamp]

/-- Parse a word list back into a QR payload. -/
def decodeQRData : List Nat → Option QRData
  | [a, b, c, d, e] =>
    some { registrationId := a, ticketNumber := b, eventId := c, userId := d, timestamp := e }
  | _ => none

/-- Ideal MAC over the key and the encoded payload (injective pairing). -/
def qrMac (key : Nat) (body : List Nat) : Nat :=
  Nat.pair key (body.foldr Nat.pair 0)

/-- `encryptQRCode` (via `generateQRCodeData`): serialize the payload and
encrypt it under the configured key. -/
def encryptQRCode (key : Nat) (d : QRData) : List Nat :=
  qrMac key (encodeQRData d) :: encodeQRData d

/-- `decryptQRCode`: decrypt and JSON-parse, failing (`none` models the thrown
`"Data QR code tidak valid"`) whenever the ciphertext is not an intact
encryption under this key. -/
def decryptQRCode (key : Nat) (c : List Nat) : Option QRData :=
  match c with
  | [] => none
  | mac :: body => if mac == qrMac key body then decodeQRData body else none

/-- The string presented to `processCheckIn`: an encrypted credential, a plain
(unencrypted) JSON payload, or anything else. -/
inductive QRInput
  | enc (c : List Nat)
  | plain (d : QRData)
  | junk
  deriving DecidableEq, Repr

/-- `decryptQRCode` applied to a presented string: only an intact ciphertext
decrypts; a plain-JSON or junk string makes CryptoJS produce garbage, so the
decrypt attempt throws. -/
def decryptInput (key : Nat) : QRInput → Option QRData
  | .enc c => decryptQRCode key c
  | .plain _ => none
  | .junk => none

/-- The `JSON.parse` fallback of `processCheckIn` on the raw presented string:
succeeds exactly on a plain JSON payload. -/
def parsePlainInput : QRInput → Option QRData
  | .enc _ => none
  | .plain d => some d
  | .junk => none

/-- Outcome messages of `CheckInService.processCheckIn`. -/
inductive CheckInMsg
  | invalidQR
  | rejected (m : ValidateMsg)
  | failedCheckIn (e : String)
  | checkInOk
  deriving DecidableEq, Repr

/-- Result record of `processCheckIn`. -/
structure CheckInOutcome where
  success : Bool
  registration : Option Registration
  message : CheckInMsg
  deriving DecidableEq, Repr

/-- `CheckInService.processCheckIn`: decrypt the presented QR string, falling
back to parsing it as plain JSON when decryption fails (and rejecting as
invalid if that fails too); validate the decoded payload with
`validateQRCode`; then perform the check-in with `checkInRegistration`
(whose thrown errors are caught and surfaced as a failure message).
The WhatsApp confirmation is fire-and-forget and elided. -/
def processCheckIn (w : World) (key now checkedBy : Nat) (input : QRInput) :
    World × CheckInOutcome :=
  let qrData :=
    match decryptInput key input with
    | some d => some d
    | none => parsePlainInput input
  match qrData with
  | none => (w, { success := false, registration := none, message := .invalidQR })
  | some q =>
    let v := validateQRCode w now q
    if !v.valid then
      (w, { success := false, registration := v.registration, message := .rejected v.message })
    else
      match checkInRegistration w q.registrationId checkedBy now with
      | (w1, .ok r) =>
        (w1, { success := true, registration := some r, message := .checkInOk })
      | (w1, .error e) =>
        (w1, { success := false, registration := none, message := .failedCheckIn e })

/-! ## Concrete fixtures -/

/-- A tier with consistent stored `available`. -/
def mkTier (i p q s v : Nat) : TicketTier :=
  { id := i, price := p, quota := q, sold := s, reserved := v
    available := (q : Int) - (s : Int) - (v : Int), isActive := true }

/-- A published event, registration window wide open, holding one tier. -/
def mkEvent (i : Nat) (t : TicketTier) : Event :=
  { id := i, organizerId := 9, status := .published
    registrationOpen := 0, registrationClose := 10 ^ 15
    ticketTypes := [t]
    stats := { totalSold := t.sold, totalRevenue := t.sold * t.price } }

/-- A payment subdocument in the given state. -/
def mkPayment (st : PayStatus) (amount : Nat) (oid : Option Nat) (expAt : Nat) : Payment :=
  { method := "midtrans", status := st, amount := amount, adminFee := 0
    totalAmount := amount, orderId := oid, snapToken := none
    transactionId := none, paidAt := none, expiredAt := expAt, refundedAt := none }

/-- A fresh (unissued) ticket subdocument. -/
def freshTicket : Ticket :=
  { ticketNumber := none, qrCode := none, status := .valid, checkIn := none }

/-- A registration document over the single-tier fixture event. -/
def mkReg (rid uid eid tid price qty : Nat) (pay : Payment) (tk : Ticket)
    (st : RegStatus) : Registration :=
  { id := rid, userId := uid, eventId := eid, tierId := tid, tierPrice := price
    quantity := qty, payment := pay, ticket := tk, status := st, cancellation := none }

/-! ## Observers -/

/-- The `(sold, reserved)` counters of a tier, read back from the store. -/
def soldReserved (w : World) (eventId tid : Nat) : Option (Nat × Nat) :=
  (findEvent w eventId).bind fun e => (findTier e tid).map fun t => (t.sold, t.reserved)

/-- The stored `available` of a tier. -/
def availableOf (w : World) (eventId tid : Nat) : Option Int :=
  (findEvent w eventId).bind fun e => (findTier e tid).map fun t => t.available

/-- The lifecycle-relevant fields of a registration: top-level status, payment
status, ticket number, ticket status. -/
def regObs (w : World) (rid : Nat) : Option (RegStatus × PayStatus × Option Nat × TicketStatus) :=
  (findReg w rid).map fun r => (r.status, r.payment.status, r.ticket.ticketNumber, r.ticket.status)

/-! ## Claim C1: webhook idempotence -/

/-- A correctly signed `settlement` notification for the given order. -/
def settlementNote (oid amt serverKey txn : Nat) : ProviderNote :=
  { orderId := oid, statusCode := 200, grossAmount := amt
    signatureKey := midtransSignature oid 200 amt serverKey
    transactionStatus := .settlement, transactionId := txn, fraudStatus := none }

/-- World with one published event whose single tier has the given
`quota`/`sold`/`reserved`, and one pending-payment registration (id 1, buyer 7,
quantity 1, order id 5, amount 50000, payment deadline 1000). -/
def pendingWorld (q s v : Nat) : World :=
  { events := [mkEvent 1 (mkTier 1 50000 q s v)]
    regs := [mkReg 1 7 1 1 50000 1 (mkPayment .pending 50000 (some 5) 1000)
      freshTicket .pendingPayment]
    users := [7] }

/-- `pendingWorld` after one delivery of the settlement notification. -/
def afterSettlement (q s v : Nat) : World :=
  (handlePaymentNotification (pendingWorld q s v) 99 (settlementNote 5 50000 99 77) 41 2000).toOption.getD
    (pendingWorld q s v)

/-- `pendingWorld` after two deliveries of the same settlement notification. -/
def afterSettlementTwice (q s v : Nat) : World :=
  (handlePaymentNotification (afterSettlement q s v) 99 (settlementNote 5 50000 99 77) 52 3000).toOption.getD
    (afterSettlement q s v)

/-- C1, counterexample.  The same valid settlement notification delivered
twice to a pending registration (tier `quota 10, sold 0, reserved 2`) is not
idempotent: the first delivery moves the tier to `sold = 1, reserved = 1`, and
the second delivery — which the claim requires to be a no-op — increments
`sold` again and decrements `reserved` again, reaching `sold = 2, reserved = 0`
though only one registration was ever converted.  (The ticket number itself is
not reassigned.) -/
theorem settlement_replay_double_counts :
    soldReserved (afterSettlement 10 0 2) 1 1 = some (1, 1) ∧
    soldReserved (afterSettlementTwice 10 0 2) 1 1 = some (2, 0) ∧
    regObs (afterSettlement 10 0 2) 1 = some (.confirmed, .paid, some 41, .valid) ∧
    regObs (afterSettlementTwice 10 0 2) 1 = some (.confirmed, .paid, some 41, .valid) := by
  decide

/-- C1, amended.  Delivering a valid settlement notification for a pending
registration performs one `pending_payment → confirmed` transition, marks the
payment `paid`, and issues one ticket number; re-delivering the same
notification leaves the registration's status and ticket number unchanged
(the pre-save hook only fires when `payment.status` changes to `paid` with no
number set), but — because `handleSuccessfulPayment` has no guard on the
current `payment.status` — it is not a no-op on the inventory ledger: the
tier's `sold` is incremented again and `reserved` decremented again (clamped
at zero). -/
theorem settlement_replay_amended (q s v : Nat) :
    soldReserved (afterSettlement q s v) 1 1 = some (s + 1, v - 1) ∧
    regObs (afterSettlement q s v) 1 = some (.confirmed, .paid, some 41, .valid) ∧
    soldReserved (afterSettlementTwice q s v) 1 1 = some (s + 2, v - 2) ∧
    regObs (afterSettlementTwice q s v) 1 = some (.confirmed, .paid, some 41, .valid) := by
  refine ⟨rfl, rfl, ?_, rfl⟩
  show some (s + 1 + 1, v - 1 - 1) = some (s + 2, v - 2)
  rw [Nat.sub_sub]

/-! ## Claim C2: `cancelled` is terminal -/

/-- World with one published event (single tier `quota q, sold s, reserved v`)
and one registration already cancelled by the expiry sweep: payment `expired`,
ticket `expired`, status `cancelled`, order id 5 still attached. -/
def cancelledWorld (q s v : Nat) : World :=
  { events := [mkEvent 1 (mkTier 1 50000 q s v)]
    regs := [mkReg 1 7 1 1 50000 1 (mkPayment .expired 50000 (some 5) 1000)
      { freshTicket with status := .expired } .cancelled]
    users := [7] }

/-- `cancelledWorld` after a late valid settlement notification. -/
def cancelledAfterSettlement (q s v : Nat) : World :=
  (handlePaymentNotification (cancelledWorld q s v) 99 (settlementNote 5 50000 99 77) 41 2000).toOption.getD
    (cancelledWorld q s v)

/-- C2, counterexample.  A registration the expiry sweep has cancelled
(status `cancelled`, payment `expired`) is resurrected by a late valid
settlement notification for its order id: its status becomes `confirmed` and
its payment `paid` — the claim requires it to remain `cancelled`. -/
theorem late_settlement_resurrects :
    regObs (cancelledWorld 10 0 0) 1 = some (.cancelled, .expired, none, .expired) ∧
    regObs (cancelledAfterSettlement 10 0 0) 1 =
      some (.confirmed, .paid, some 41, .expired) := by
  decide

/-- C2, amended.  `cancelled` is terminal for explicit cancellation
(`cancelRegistration` rejects an already-cancelled registration with
`"Registrasi sudah dibatalkan"` and leaves the store untouched) and for the
expiry sweep (which only selects `payment.status = 'pending'`), but not for
payment reconciliation: a late valid settlement notification for the
registration's order id sets `payment.status = 'paid'` and
`status = 'confirmed'` (and, via the pre-save hook, issues a ticket number),
because `handleSuccessfulPayment` never checks the current state. -/
theorem cancelled_terminal_amended (q s v : Nat) :
    cancelRegistration (cancelledWorld q s v) 1 7 3000 =
      (cancelledWorld q s v, .error "Registrasi sudah dibatalkan") ∧
    expirePaymentsJob (cancelledWorld q s v) 3000 = cancelledWorld q s v ∧
    regObs (cancelledAfterSettlement q s v) 1 =
      some (.confirmed, .paid, some 41, .expired) := by
  exact ⟨rfl, rfl, rfl⟩

/-! ## Claim C3: payment-intent failure at registration time -/

/-- World with one published event (single tier priced 50000 with the given
counters), no registrations yet, and buyer 7. -/
def createWorld (q s v : Nat) : World :=
  { events := [mkEvent 1 (mkTier 1 50000 q s v)], regs := [], users := [7] }

/-- A creation environment whose external Snap call fails. -/
def envIntentFail : CreateEnv :=
  { regId := 1, hookTicket := 41, fallbackTicket := 42, orderId := 5
    snapToken := 6, providerOk := false }

/-- Buyer 7 registering for event 1, tier 1, quantity 1. -/
def buyerReq : CreateRegData := { userId := 7, eventId := 1, ticketTypeId := 1, quantity := 1 }

/-- The store left behind by a creation attempt whose payment-intent call
fails. -/
def intentFailResult (q s v : Nat) : World × Except String (Nat × Option (Nat × Nat)) :=
  createRegistration (createWorld q s v) buyerReq envIntentFail 1000 24

/-- C3, counterexample.  On a tier with `quota 10, sold 0, reserved 0`, a paid
registration-creation call whose payment-intent creation fails does fail as a
whole (`"Gagal membuat transaksi pembayaran"` propagates), but the reservation
taken earlier in the same call is not released: a `pending_payment`
registration remains persisted and the tier is left with `reserved = 1` —
the claim requires that no such registration remain holding inventory. -/
theorem intent_failure_keeps_reservation :
    (intentFailResult 10 0 0).2 = .error "Gagal membuat transaksi pembayaran" ∧
    regObs (intentFailResult 10 0 0).1 1 = some (.pendingPayment, .pending, none, .valid) ∧
    soldReserved (intentFailResult 10 0 0).1 1 1 = some (0, 1) :=
  ⟨rfl, rfl, rfl⟩

/-- C3, amended.  When `createPayment` fails during a non-free registration
creation, the creation attempt fails as a whole (the error propagates to the
caller), but the tier reservation taken earlier in the same operation is NOT
released: the persisted `pending_payment` registration remains, holding
`reserved + quantity`, until some later path (e.g. the expiry sweep) releases
it. -/
theorem intent_failure_amended (q s v : Nat) (h : s + v < q) :
    (intentFailResult q s v).2 = .error "Gagal membuat transaksi pembayaran" ∧
    regObs (intentFailResult q s v).1 1 = some (.pendingPayment, .pending, none, .valid) ∧
    soldReserved (intentFailResult q s v).1 1 1 = some (s, v + 1) := by
  have hx : ((q : Int) - (s : Int) - (v : Int) ≤ 0) = False := by
    simp only [eq_iff_iff, iff_false, not_le]
    omega
  simp [intentFailResult, createRegistration, createRegistrationRW, createWorld, buyerReq,
    envIntentFail, findEvent, findTier, findReg, mkEvent, mkTier, mkPayment, freshTicket,
    List.find?, insertReg, saveReg, saveEvent,
    updateTicketAvailability, applyTicketAvailability, ticketNumberHook, createPayment,
    regObs, soldReserved, hx]

/-- C3, witness for the amended theorem. -/
theorem intent_failure_amended_witness :
    (intentFailResult 10 2 3).2 = .error "Gagal membuat transaksi pembayaran" ∧
    regObs (intentFailResult 10 2 3).1 1 = some (.pendingPayment, .pending, none, .valid) ∧
    soldReserved (intentFailResult 10 2 3).1 1 1 = some (2, 4) :=
  intent_failure_amended 10 2 3 (by decide)

/-! ## Claim C4: inventory conservation -/

/-- A creation environment whose external Snap call succeeds. -/
def envOk : CreateEnv :=
  { regId := 1, hookTicket := 41, fallbackTicket := 42, orderId := 5
    snapToken := 6, providerOk := true }

/-- Buyer 7 registering for two seats at once. -/
def qty2Req : CreateRegData := { userId := 7, eventId := 1, ticketTypeId := 1, quantity := 2 }

/-- The store after a quantity-2 creation against a quota-1 tier. -/
def oversoldWorld : World :=
  (createRegistration (createWorld 1 0 0) qty2Req envOk 1000 24).1

/-- C4, counterexample.  On a tier with `quota 1, sold 0, reserved 0`
(`available = 1`), a creation call for quantity 2 passes the availability
guard — which only requires `available > 0`, never comparing the requested
quantity — and reserves both seats: the tier ends with
`sold + reserved = 2 > quota = 1` and stored `available = -1`, violating both
inequalities of the claim. -/
theorem quantity_two_breaks_conservation :
    (createRegistration (createWorld 1 0 0) qty2Req envOk 1000 24).2 = .ok (1, some (6, 5)) ∧
    soldReserved oversoldWorld 1 1 = some (0, 2) ∧
    availableOf oversoldWorld 1 1 = some (-1) ∧
    ((findEvent oversoldWorld 1).bind (fun e => findTier e 1)).map
      (fun t => decide (t.sold + t.reserved ≤ t.quota)) = some false :=
  ⟨rfl, rfl, rfl, rfl⟩

/-- `find?` over the conditional rewrite performed by
`applyTicketAvailability`: the looked-up tier is the rewritten one. -/
theorem find?_map_update (l : List TicketTier) (tid : Nat) (upd : TicketTier → TicketTier)
    (hid : ∀ t, (upd t).id = t.id) :
    (l.map (fun t => if t.id == tid then upd t else t)).find? (fun t => t.id == tid) =
      (l.find? (fun t => t.id == tid)).map upd := by
  induction l with
  | nil => rfl
  | cons a l ih =>
    rw [List.map_cons]
    by_cases h : (a.id == tid) = true
    · rw [if_pos h]
      have h2 : a.id = tid := by simpa using h
      simp [-List.find?_map, h2, hid]
    · rw [if_neg h]
      have h2 : ¬ a.id = tid := by simpa using h
      simpa [-List.find?_map, h2] using ih

/-- C4, amended.  The stored `available` field is indeed always recomputed:
after any ledger write `applyTicketAvailability e tid s v`, the updated tier
carries exactly `sold = s`, `reserved = v` and
`available = quota - sold - reserved`.  But `sold + reserved <= quota` and
`available >= 0` are not invariants of the operation sequence (see the
counterexample): the creation guard only checks `available > 0`, not
`available >= quantity`. -/
theorem available_always_recomputed (e : Event) (tid s v : Nat) (t' : TicketTier)
    (h : findTier (applyTicketAvailability e tid s v) tid = some t') :
    t'.sold = s ∧ t'.reserved = v ∧
      t'.available = (t'.quota : Int) - (t'.sold : Int) - (t'.reserved : Int) := by
  have key := find?_map_update e.ticketTypes tid
    (fun t => { t with sold := s, reserved := v, available := (t.quota : Int) - (s : Int) - (v : Int) })
    (fun t => rfl)
  rw [findTier, applyTicketAvailability] at h
  simp only at h
  rw [key] at h
  rcases ho : List.find? (fun t => t.id == tid) e.ticketTypes with _ | t
  · rw [ho] at h
    cases h
  · rw [ho] at h
    cases h
    exact ⟨rfl, rfl, rfl⟩

/-- C4, witness for the amended theorem. -/
theorem available_always_recomputed_witness :
    ∃ t', findTier (applyTicketAvailability (mkEvent 1 (mkTier 1 50000 10 0 0)) 1 3 4) 1 = some t' ∧
      (t'.sold = 3 ∧ t'.reserved = 4 ∧
        t'.available = (t'.quota : Int) - (t'.sold : Int) - (t'.reserved : Int)) :=
  ⟨_, rfl, available_always_recomputed (mkEvent 1 (mkTier 1 50000 10 0 0)) 1 3 4 _ rfl⟩

/-! ## Claim C5: reservation released exactly once -/

/-- World with one published event whose single tier is free (price 0) with
the given counters, and buyer 7. -/
def freeWorld (q s v : Nat) : World :=
  { events := [mkEvent 1 (mkTier 1 0 q s v)], regs := [], users := [7] }

/-- The store after buyer 7 creates a free registration (quantity 1). -/
def afterFreeCreate (q s v : Nat) : World :=
  (createRegistration (freeWorld q s v) buyerReq envOk 1000 24).1

/-- `afterFreeCreate` after the buyer cancels that confirmed registration. -/
def afterFreeCancel (q s v : Nat) : World :=
  (cancelRegistration (afterFreeCreate q s v) 1 7 2000).1

/-- C5, counterexample.  A free registration (tier `quota 3, sold 1,
reserved 0`) is created as `confirmed`/`paid` but still increments `reserved`
to 1; nothing ever converts or releases that reservation: the expiry sweep
skips it (`payment.status = 'paid'`, not `pending`), and even an explicit
cancellation decrements `sold` (1 → 0 — a unit this registration never sold)
while leaving `reserved = 1` held forever.  The claim's
"released exactly once, including for a confirmed free registration" fails. -/
theorem free_reservation_never_released :
    soldReserved (afterFreeCreate 3 1 0) 1 1 = some (1, 1) ∧
    regObs (afterFreeCreate 3 1 0) 1 = some (.confirmed, .paid, some 41, .valid) ∧
    expirePaymentsJob (afterFreeCreate 3 1 0) (10 ^ 12) = afterFreeCreate 3 1 0 ∧
    soldReserved (afterFreeCancel 3 1 0) 1 1 = some (0, 1) :=
  ⟨rfl, rfl, rfl, rfl⟩

/-- C5, amended.  A paid registration's reservation is converted or released
by the payment/cancellation/expiry paths, but a confirmed free registration's
reservation is never released: creation leaves the unit in `reserved` (never
converting it to a sale), the expiry sweep never selects the registration
(its payment is `paid`, not `pending`), and cancellation — judging by
`payment.status = 'paid'` — decrements `sold` (clamped at zero) instead of
`reserved`, so the reserved unit stays held permanently. -/
theorem free_reservation_amended (q s v : Nat) (h : s + v < q) :
    soldReserved (afterFreeCreate q s v) 1 1 = some (s, v + 1) ∧
    regObs (afterFreeCreate q s v) 1 = some (.confirmed, .paid, some 41, .valid) ∧
    expirePaymentsJob (afterFreeCreate q s v) (10 ^ 12) = afterFreeCreate q s v ∧
    soldReserved (afterFreeCancel q s v) 1 1 = some (s - 1, v + 1) := by
  have hx : ((q : Int) - (s : Int) - (v : Int) ≤ 0) = False := by
    simp only [eq_iff_iff, iff_false, not_le]
    omega
  refine ⟨?_, ?_, ?_, ?_⟩ <;>
    simp [afterFreeCreate, afterFreeCancel, createRegistration, createRegistrationRW,
      freeWorld, buyerReq, envOk, findEvent, findTier, findReg, mkEvent, mkTier, mkPayment,
      freshTicket, List.find?, insertReg, saveReg, saveEvent, updateTicketAvailability,
      applyTicketAvailability, ticketNumberHook, generateTicket, createPayment,
      expirePaymentsJob, expireOne, cancelRegistration, regObs, soldReserved, hx]

/-- C5, witness for the amended theorem. -/
theorem free_reservation_amended_witness :
    soldReserved (afterFreeCreate 3 1 0) 1 1 = some (1, 0 + 1) ∧
    regObs (afterFreeCreate 3 1 0) 1 = some (.confirmed, .paid, some 41, .valid) ∧
    expirePaymentsJob (afterFreeCreate 3 1 0) (10 ^ 12) = afterFreeCreate 3 1 0 ∧
    soldReserved (afterFreeCancel 3 1 0) 1 1 = some (1 - 1, 0 + 1) :=
  free_reservation_amended 3 1 0 (by decide)

/-! ## Claim C6: oversell prevention under concurrency -/

/-- A quota-1 tier with nothing sold or reserved, and two buyers 7 and 8. -/
def lastSeatWorld : World :=
  { events := [mkEvent 1 (mkTier 1 50000 1 0 0)], regs := [], users := [7, 8] }

/-- Buyer 8's request and environment (distinct document/order ids). -/
def buyerReqB : CreateRegData := { userId := 8, eventId := 1, ticketTypeId := 1, quantity := 1 }

/-- Creation environment for buyer 8's call. -/
def envOkB : CreateEnv :=
  { regId := 2, hookTicket := 43, fallbackTicket := 44, orderId := 15
    snapToken := 16, providerOk := true }

/-- The two calls run one after the other (second reads the first's writes). -/
def seqFirst : World × Except String (Nat × Option (Nat × Nat)) :=
  createRegistration lastSeatWorld buyerReq envOk 1000 24

/-- Sequential second call. -/
def seqSecond : World × Except String (Nat × Option (Nat × Nat)) :=
  createRegistration seqFirst.1 buyerReqB envOkB 1000 24

/-- The two calls interleave: both database reads happen against the initial
store, before either write (the availability check and the reservation write
are separate round-trips). -/
def raceFirst : World × Except String (Nat × Option (Nat × Nat)) :=
  createRegistrationRW lastSeatWorld lastSeatWorld buyerReq envOk 1000 24

/-- Interleaved second call: reads the initial store, writes after the first. -/
def raceSecond : World × Except String (Nat × Option (Nat × Nat)) :=
  createRegistrationRW lastSeatWorld raceFirst.1 buyerReqB envOkB 1000 24

/-- C6, counterexample.  Against a tier with `available = 1`, two creation
calls for one seat each whose reads both precede either write (the guard and
the reservation are separate non-atomic store round-trips) BOTH succeed:
two `pending_payment` registrations are persisted while the tier records only
`reserved = 1` (each write stored absolute counts computed from the stale
snapshot).  The claim requires exactly one success and one
insufficient-inventory rejection. -/
theorem concurrent_create_oversells :
    raceFirst.2 = .ok (1, some (6, 5)) ∧
    raceSecond.2 = .ok (2, some (16, 15)) ∧
    (raceSecond.1.regs.map fun r => (r.id, r.userId, r.status)) =
      [(1, 7, .pendingPayment), (2, 8, .pendingPayment)] ∧
    soldReserved raceSecond.1 1 1 = some (0, 1) :=
  ⟨rfl, rfl, rfl, rfl⟩

/-- C6, amended.  Sequentially, oversell prevention holds for unit requests:
on a tier with `available = 1`, the first creation call succeeds and reserves
the seat, and the second call — reading the updated counters — fails with the
sold-out error, leaving exactly one `pending_payment` registration.  But the
availability check and the reservation write are two separate store
round-trips with no atomic compare-and-swap, so two calls whose reads both
precede either write can both succeed (see the counterexample): the
exactly-`k`-winners guarantee does not survive concurrent interleavings. -/
theorem sequential_create_sells_out :
    seqFirst.2 = .ok (1, some (6, 5)) ∧
    soldReserved seqFirst.1 1 1 = some (0, 1) ∧
    seqSecond.2 = .error "Tiket sudah habis" ∧
    (seqSecond.1.regs.map fun r => (r.id, r.userId, r.status)) = [(1, 7, .pendingPayment)] ∧
    soldReserved seqSecond.1 1 1 = some (0, 1) :=
  ⟨rfl, rfl, rfl, rfl, rfl⟩

/-! ## Claim C7: free registration is immediately confirmed -/

/-- World with one published event whose single tier has price `p` and the
given counters, and buyer 7. -/
def pricedWorld (p q s v : Nat) : World :=
  { events := [mkEvent 1 (mkTier 1 p q s v)], regs := [], users := [7] }

/-- Buyer 7 requesting `n` seats. -/
def reqQty (n : Nat) : CreateRegData := { userId := 7, eventId := 1, ticketTypeId := 1, quantity := n }

/-- Result of buyer 7's creation call against `pricedWorld`. -/
def pricedCreate (p q s v n : Nat) : World × Except String (Nat × Option (Nat × Nat)) :=
  createRegistration (pricedWorld p q s v) (reqQty n) envOk 1000 24

/-- C7, confirmed.  Whenever `price * quantity = 0` (with the source's
`data.quantity || 1` coercion), a creation call that passes the guards returns
successfully with no payment data (`none`: no payment-provider intent is
created), and the persisted registration has `status = 'confirmed'`,
`payment.status = 'paid'`, and a non-empty `ticket.ticketNumber` assigned by
the pre-save hook. -/
theorem free_creation_confirms (p q s v n : Nat) (havail : s + v < q)
    (hfree : p * (if n == 0 then 1 else n) = 0) :
    (pricedCreate p q s v n).2 = .ok (1, none) ∧
    regObs (pricedCreate p q s v n).1 1 = some (.confirmed, .paid, some 41, .valid) := by
  have hp0 : p = 0 := by
    rcases Nat.mul_eq_zero.mp hfree with h | h
    · exact h
    · exfalso
      revert h
      cases n <;> simp
  subst hp0
  have hx : ((q : Int) - (s : Int) - (v : Int) ≤ 0) = False := by
    simp only [eq_iff_iff, iff_false, not_le]
    omega
  constructor <;>
    simp [pricedCreate, pricedWorld, reqQty, createRegistration, createRegistrationRW,
      envOk, findEvent, findTier, findReg, mkEvent, mkTier, mkPayment, freshTicket,
      List.find?, insertReg, saveReg, saveEvent, updateTicketAvailability,
      applyTicketAvailability, ticketNumberHook, generateTicket, createPayment,
      regObs, soldReserved, hx]

/-- C7, witness: a two-seat request on a zero-priced tier. -/
theorem free_creation_confirms_witness :
    (pricedCreate 0 10 0 0 2).2 = .ok (1, none) ∧
    regObs (pricedCreate 0 10 0 0 2).1 1 = some (.confirmed, .paid, some 41, .valid) :=
  free_creation_confirms 0 10 0 0 2 (by decide) (by decide)

/-! ## Claim C8: one run of the expiry sweep -/

/-- World with one pending registration for `n` seats (payment deadline 1000)
over a tier with the given counters. -/
def pendingQtyWorld (q s v n : Nat) : World :=
  { events := [mkEvent 1 (mkTier 1 50000 q s v)]
    regs := [mkReg 1 7 1 1 50000 n (mkPayment .pending (50000 * n) (some 5) 1000)
      freshTicket .pendingPayment]
    users := [7] }

/-- `pendingQtyWorld` after the expiry sweep runs at time 2000. -/
def afterSweep (q s v n : Nat) : World :=
  expirePaymentsJob (pendingQtyWorld q s v n) 2000

/-- C8, confirmed.  For a registration with `payment.status = 'pending'` and
`payment.expiredAt <= now` whose reservation (`n <= reserved`) is still held,
one run of the expiry sweep sets `payment.status = 'expired'`, the top-level
status to `cancelled` and the ticket status to `expired`, and decrements the
tier's `reserved` by the registration's quantity while leaving `sold`
unchanged. -/
theorem expiry_sweep_cancels (q s v n : Nat) (h : n ≤ v) :
    regObs (afterSweep q s v n) 1 = some (.cancelled, .expired, none, .expired) ∧
    soldReserved (afterSweep q s v n) 1 1 = some (s, v - n) ∧
    (v - n) + n = v := by
  refine ⟨rfl, rfl, ?_⟩
  omega

/-- C8, witness: quantity 2 against five reserved seats. -/
theorem expiry_sweep_cancels_witness :
    regObs (afterSweep 10 3 5 2) 1 = some (.cancelled, .expired, none, .expired) ∧
    soldReserved (afterSweep 10 3 5 2) 1 1 = some (3, 5 - 2) ∧
    (5 - 2) + 2 = 5 :=
  expiry_sweep_cancels 10 3 5 2 (by decide)

/-! ## Claim C9: credential round trip -/

set_option maxHeartbeats 2000000 in
/-- Tampering detection: changing any single position of an encrypted
credential to a different value makes decryption fail (the MAC over key and
body no longer matches, by injectivity of the pairing). -/
theorem decrypt_tampered (key : Nat) (d : QRData) (i x : Nat) (hi : i < 6)
    (hx : x ≠ (encryptQRCode key d).getD i 0) :
    decryptQRCode key ((encryptQRCode key d).set i x) = none := by
  have hx2 := Ne.symm hx
  interval_cases i <;>
    simp_all [encryptQRCode, decryptQRCode, encodeQRData, qrMac, Nat.pair_eq_pair]

/-- A confirmed, paid registration whose ticket number 41 has been issued. -/
def issuedReg : Registration :=
  mkReg 1 7 1 1 50000 1 { mkPayment .paid 50000 (some 5) 1000 with paidAt := some 900 }
    { ticketNumber := some 41, qrCode := none, status := .valid, checkIn := none } .confirmed

/-- World holding `issuedReg` over a tier that sold one seat. -/
def issuedWorld : World :=
  { events := [mkEvent 1 (mkTier 1 50000 10 1 0)], regs := [issuedReg], users := [7] }

/-- The credential payload embedded in ticket 41's QR code. -/
def credPayload : QRData :=
  { registrationId := 1, ticketNumber := 41, eventId := 1, userId := 7, timestamp := 1000 }

/-- Ticket 41's encrypted credential. -/
def issuedCred : List Nat := encryptQRCode 99 credPayload

/-- The store after gate staff 33 scans ticket 41's credential at time 1500. -/
def afterGateScan : World :=
  (processCheckIn issuedWorld 99 1500 33 (.enc issuedCred)).1

/-- C9, confirmed.  Issuing then immediately validating a credential succeeds
(`valid: true`); after the successful check-in, validating the same credential
is rejected as already used; and presenting a ciphertext with any single
position flipped to a different value is rejected as invalid (decryption
fails, and the plain-JSON fallback cannot parse a ciphertext either). -/
theorem credential_round_trip :
    decryptQRCode 99 issuedCred = some credPayload ∧
    validateQRCode issuedWorld 1500 credPayload =
      { valid := true, registration := some issuedReg, message := .validQR } ∧
    (processCheckIn issuedWorld 99 1500 33 (.enc issuedCred)).2.success = true ∧
    (validateQRCode afterGateScan 1600 credPayload).valid = false ∧
    (validateQRCode afterGateScan 1600 credPayload).message = .alreadyUsed ∧
    (∀ i x, i < 6 → x ≠ issuedCred.getD i 0 →
      (processCheckIn issuedWorld 99 1500 33 (.enc (issuedCred.set i x))).2 =
        { success := false, registration := none, message := .invalidQR }) := by
  refine ⟨rfl, rfl, rfl, rfl, rfl, ?_⟩
  intro i x hi hx
  have hd := decrypt_tampered 99 credPayload i x hi (by simpa [issuedCred] using hx)
  simp [processCheckIn, decryptInput, parsePlainInput, issuedCred, hd]

/-- C9, witness: flipping ciphertext position 2 (the embedded ticket number)
to 999 is rejected. -/
theorem credential_round_trip_witness :
    (2 : Nat) < 6 ∧ (999 : Nat) ≠ issuedCred.getD 2 0 ∧
    (processCheckIn issuedWorld 99 1500 33 (.enc (issuedCred.set 2 999))).2 =
      { success := false, registration := none, message := .invalidQR } :=
  ⟨by decide, by decide,
    credential_round_trip.2.2.2.2.2 2 999 (by decide) (by decide)⟩

/-! ## Claim C10: unauthenticated plain-JSON check-in -/

/-- The store after staff 33 presents ticket 41's payload as PLAIN JSON. -/
def afterPlainScan : World :=
  (processCheckIn issuedWorld 99 1500 33 (.plain credPayload)).1

/-- C10, confirmed.  A well-formed PLAIN (unencrypted) JSON payload naming a
confirmed registration and its stored ticket number is accepted by
`processCheckIn`: decryption of the presented string fails (no cryptographic
authentication of the credential ever succeeds), the backward-compatibility
fallback parses it as raw JSON, validation passes, and the registration is
checked in (`attended`, ticket `used`). -/
theorem plain_json_checkin_succeeds :
    decryptInput 99 (.plain credPayload) = none ∧
    (processCheckIn issuedWorld 99 1500 33 (.plain credPayload)).2.success = true ∧
    (processCheckIn issuedWorld 99 1500 33 (.plain credPayload)).2.message = .checkInOk ∧
    regObs afterPlainScan 1 = some (.attended, .paid, some 41, .used) :=
  ⟨rfl, rfl, rfl, rfl⟩

end NesaVent
